import Mathlib

/-!
Verification development for the polarway-lakehouse storage layer.

Shallow embedding of the data model and operations of the lakehouse
crate: the audit action taxonomy and billing tally, the auth actor's
user-row rewrites, the configuration record, and the transactional
store operations (append, delete, scan, time-travel, compact, vacuum).
Definitions are translated from the Rust source; operations whose body
lives in the external delta-rs crate are modelled from the spec and
carry a doc comment saying so.
-/

namespace Polaroid

/-! ## Audit action taxonomy (src/polarway-lakehouse/src/audit/types.rs) -/

/-- Action types for the audit log, from the ActionType enum. -/
inductive ActionType
  | Login
  | Logout
  | Register
  | PasswordChange
  | UserApproved
  | UserRejected
  | UserDeleted
  | QueryExecuted
  | DataUpload
  | DataExport
  | StrategyCreated
  | StrategyUpdated
  | StrategyDeleted
  | BacktestRun
  | LiveTradeStart
  | LiveTradeStop
  | AdminAction
  | ConfigChange
  | SubscriptionChange
  | PaymentReceived
  deriving DecidableEq, Repr

/-- String form of each action kind, from ActionType::as_str. -/
def ActionType.as_str : ActionType → String
  | .Login => "login"
  | .Logout => "logout"
  | .Register => "register"
  | .PasswordChange => "password_change"
  | .UserApproved => "user_approved"
  | .UserRejected => "user_rejected"
  | .UserDeleted => "user_deleted"
  | .QueryExecuted => "query_executed"
  | .DataUpload => "data_upload"
  | .DataExport => "data_export"
  | .StrategyCreated => "strategy_created"
  | .StrategyUpdated => "strategy_updated"
  | .StrategyDeleted => "strategy_deleted"
  | .BacktestRun => "backtest_run"
  | .LiveTradeStart => "live_trade_start"
  | .LiveTradeStop => "live_trade_stop"
  | .AdminAction => "admin_action"
  | .ConfigChange => "config_change"
  | .SubscriptionChange => "subscription_change"
  | .PaymentReceived => "payment_received"

/-- Parse an action-kind string, from ActionType::from_str; unknown
strings fall back to AdminAction. -/
def ActionType.from_str (s : String) : ActionType :=
  match s with
  | "login" => .Login
  | "logout" => .Logout
  | "register" => .Register
  | "password_change" => .PasswordChange
  | "user_approved" => .UserApproved
  | "user_rejected" => .UserRejected
  | "user_deleted" => .UserDeleted
  | "query_executed" => .QueryExecuted
  | "data_upload" => .DataUpload
  | "data_export" => .DataExport
  | "strategy_created" => .StrategyCreated
  | "strategy_updated" => .StrategyUpdated
  | "strategy_deleted" => .StrategyDeleted
  | "backtest_run" => .BacktestRun
  | "live_trade_start" => .LiveTradeStart
  | "live_trade_stop" => .LiveTradeStop
  | "admin_action" => .AdminAction
  | "config_change" => .ConfigChange
  | "subscription_change" => .SubscriptionChange
  | "payment_received" => .PaymentReceived
  | _ => .AdminAction

/-- Whether an action consumes compute credits, from ActionType::is_billable. -/
def ActionType.is_billable : ActionType → Bool
  | .QueryExecuted => true
  | .DataUpload => true
  | .DataExport => true
  | .BacktestRun => true
  | .LiveTradeStart => true
  | _ => false

/-! ## Billing summary (src/polarway-lakehouse/src/audit/actor.rs,
AuditActor::handle_billing_summary) -/

/-- Billing summary for a user over a period, from audit/types.rs;
the u64 counters are modelled as Nat since the code only adds to them. -/
structure BillingSummary where
  user_id : String
  period_start : String
  period_end : String
  total_queries : Nat
  total_uploads : Nat
  total_exports : Nat
  total_backtests : Nat
  total_live_trades : Nat
  total_actions : Nat
  deriving DecidableEq, Repr

/-- The loop body of handle_billing_summary for one grouped row
(action string, count): bump total_actions, then bump the per-kind
counter selected by the hard-coded match on the action string. -/
def tally_row (s : BillingSummary) (action : String) (count : Nat) : BillingSummary :=
  let s := { s with total_actions := s.total_actions + count }
  match action with
  | "query_executed" => { s with total_queries := s.total_queries + count }
  | "data_upload" => { s with total_uploads := s.total_uploads + count }
  | "data_export" => { s with total_exports := s.total_exports + count }
  | "backtest_run" => { s with total_backtests := s.total_backtests + count }
  | "live_trade_start" => { s with total_live_trades := s.total_live_trades + count }
  | _ => s

/-- The zero summary handle_billing_summary starts from. -/
def empty_summary (user_id start_date end_date : String) : BillingSummary :=
  { user_id := user_id
    period_start := start_date
    period_end := end_date
    total_queries := 0
    total_uploads := 0
    total_exports := 0
    total_backtests := 0
    total_live_trades := 0
    total_actions := 0 }

/-- The five per-kind counters of a billing summary, as a tuple. -/
def per_kind_counters (s : BillingSummary) : Nat × Nat × Nat × Nat × Nat :=
  (s.total_queries, s.total_uploads, s.total_exports, s.total_backtests, s.total_live_trades)

/-- C10: is_billable(a) holds exactly when tallying one event of kind
a.as_str into the billing summary changes some per-kind counter. -/
theorem is_billable_matches_billing_tally (a : ActionType) :
    a.is_billable = true ↔
      per_kind_counters (tally_row (empty_summary "u" "s" "e") a.as_str 1) ≠
        per_kind_counters (empty_summary "u" "s" "e") := by
  cases a <;> simp [ActionType.is_billable, ActionType.as_str, tally_row,
    empty_summary, per_kind_counters]

/-! ## Errors (src/polarway-lakehouse/src/error.rs) -/

/-- Unified error type for all lakehouse operations, from the
LakehouseError enum; payloads that are foreign error objects in the
source are modelled as their display strings. -/
inductive LakehouseError
  | DeltaTable (msg : String)
  | TableNotFound (table : String)
  | TableAlreadyExists (table : String)
  | SchemaMismatch (expected actual : String)
  | VersionNotFound (table : String) (version : Int)
  | AuthenticationFailed (msg : String)
  | UserNotFound (user : String)
  | UserAlreadyExists (user : String)
  | InvalidCredentials
  | AccountDisabled (user : String)
  | TokenExpired
  | TokenInvalid (msg : String)
  | PasswordTooWeak (msg : String)
  | InsufficientPermissions (required actual : String)
  | AuditWriteFailed (msg : String)
  | Io (msg : String)
  | Serialization (msg : String)
  | Arrow (msg : String)
  | DataFusion (msg : String)
  | Config (msg : String)
  | ActorUnavailable (msg : String)
  | Internal (msg : String)
  deriving DecidableEq, Repr

/-! ## Auth domain types (src/polarway-lakehouse/src/auth/types.rs) -/

/-- User roles with hierarchical permissions, from the UserRole enum. -/
inductive UserRole
  | Guest
  | Pending
  | Registered
  | Trader
  | Admin
  deriving DecidableEq, Repr

/-- String form of a role, from UserRole::as_str. -/
def UserRole.as_str : UserRole → String
  | .Guest => "guest"
  | .Pending => "pending"
  | .Registered => "registered"
  | .Trader => "trader"
  | .Admin => "admin"

/-- Parse a role string, from UserRole::from_str; the source lowercases
its input first. -/
def UserRole.from_str (s : String) : UserRole :=
  match s.toLower with
  | "guest" => .Guest
  | "pending" => .Pending
  | "registered" => .Registered
  | "trader" => .Trader
  | "admin" => .Admin
  | _ => .Guest

/-- Subscription tiers matching pricing plans, from the SubscriptionTier enum. -/
inductive SubscriptionTier
  | Free
  | Hobbyist
  | Pioneer
  | Professional
  deriving DecidableEq, Repr

/-- String form of a tier, from SubscriptionTier::as_str. -/
def SubscriptionTier.as_str : SubscriptionTier → String
  | .Free => "free"
  | .Hobbyist => "hobbyist"
  | .Pioneer => "pioneer"
  | .Professional => "professional"

/-- Parse a tier string, from SubscriptionTier::from_str. -/
def SubscriptionTier.from_str (s : String) : SubscriptionTier :=
  match s.toLower with
  | "hobbyist" => .Hobbyist
  | "pioneer" => .Pioneer
  | "professional" => .Professional
  | _ => .Free

/-- Map a tier to the default role granted on admin approval, from
SubscriptionTier::default_role. -/
def SubscriptionTier.default_role : SubscriptionTier → UserRole
  | .Free => .Registered
  | .Hobbyist => .Trader
  | .Pioneer => .Trader
  | .Professional => .Trader

/-- User record as passed around by the auth actor, from the UserRecord
struct in auth/types.rs. -/
structure UserRecord where
  user_id : String
  username : String
  email : String
  role : UserRole
  subscription_tier : Option SubscriptionTier
  first_name : String
  last_name : String
  is_active : Bool
  created_at : String
  last_login : Option String
  deriving DecidableEq, Repr

/-! ## Users table rows (schema.rs users_arrow_schema and the
RecordBatch columns built in auth/actor.rs) -/

/-- One row of the users Delta table; fields in the order of
users_arrow_schema (schema.rs). Nullable columns are Option. -/
structure UserRow where
  user_id : String
  username : String
  email : String
  password_hash : String
  role : String
  subscription_tier : Option String
  first_name : Option String
  last_name : Option String
  is_active : Bool
  created_at : String
  last_login : Option String
  preferences_json : Option String
  deriving DecidableEq, Repr

/-- Build a UserRecord from a users row, from
AuthActor::extract_user_from_batch: reads every column except
password_hash and preferences_json; null optional strings default to "". -/
def extract_user_from_batch (r : UserRow) : UserRecord :=
  { user_id := r.user_id
    username := r.username
    email := r.email
    role := UserRole.from_str r.role
    subscription_tier := r.subscription_tier.map SubscriptionTier.from_str
    first_name := r.first_name.getD ""
    last_name := r.last_name.getD ""
    is_active := r.is_active
    created_at := r.created_at
    last_login := r.last_login }

/-- Return the first row of the users table matching a user id, from
AuthActor::handle_get_user (query on user_id, take the first row). -/
def handle_get_user (table : List UserRow) (user_id : String) : Option UserRecord :=
  ((table.filter (fun r => r.user_id == user_id)).head?).map extract_user_from_batch

/-- Approve a pending user, from AuthActor::handle_approve: look the
user up, delete every row with this user_id, then append a freshly
built row whose role comes from the tier and whose password_hash column
is the literal string APPROVED_USER. Returns the new table contents and
the returned UserRecord. -/
def handle_approve (table : List UserRow) (user_id : String) (tier : SubscriptionTier)
    (now : String) : Except LakehouseError (List UserRow × UserRecord) :=
  match handle_get_user table user_id with
  | none => .error (.UserNotFound user_id)
  | some user =>
    let after_delete := table.filter (fun r => !(r.user_id == user_id))
    let new_role := tier.default_role
    let new_row : UserRow :=
      { user_id := user_id
        username := user.username
        email := user.email
        password_hash := "APPROVED_USER"
        role := new_role.as_str
        subscription_tier := some tier.as_str
        first_name := some user.first_name
        last_name := some user.last_name
        is_active := true
        created_at := user.created_at
        last_login := some now
        preferences_json := some "\x7b\x7d" }
    .ok (after_delete ++ [new_row],
      { user_id := user_id
        username := user.username
        email := user.email
        role := new_role
        subscription_tier := some tier
        first_name := user.first_name
        last_name := user.last_name
        is_active := true
        created_at := user.created_at
        last_login := some now })

/-- A concrete pending user row holding a distinctive password hash. -/
def u1_row : UserRow :=
  { user_id := "u1"
    username := "alice"
    email := "alice@example.com"
    password_hash := "argon2id$original-hash"
    role := "pending"
    subscription_tier := some "free"
    first_name := some "Alice"
    last_name := some "Smith"
    is_active := true
    created_at := "2026-01-01T00:00:00Z"
    last_login := none
    preferences_json := some "\x7b\x7d" }

/-- C2: evaluation at a concrete user showing the code bug: after
handle_approve, the single row stored for the user carries
password_hash APPROVED_USER, not the hash the row held before the
call, so the original password can no longer verify. -/
theorem approve_user_drops_password_hash :
    ∃ t u, handle_approve [u1_row] "u1" SubscriptionTier.Free "2026-02-01T00:00:00Z" =
        .ok (t, u) ∧
      (t.filter (fun r => r.user_id == "u1")).map UserRow.password_hash = ["APPROVED_USER"] ∧
      u1_row.password_hash ≠ "APPROVED_USER" := by
  refine ⟨_, _, rfl, by decide, by decide⟩

/-! ## Configuration (src/polarway-lakehouse/src/config.rs) -/

/-- Lakehouse configuration, from the LakehouseConfig struct: these are
all of its fields. -/
structure LakehouseConfig where
  base_path : String
  jwt_secret : String
  session_expiry_days : Nat
  vacuum_retention_hours : Nat
  auto_compact_threshold : Nat
  session_z_order_columns : List String
  audit_z_order_columns : List String
  max_concurrent_writers : Nat
  deriving DecidableEq, Repr

/-- Config constructor with defaults, from LakehouseConfig::new; the
environment lookup of POLARWAY_JWT_SECRET is passed in explicitly. -/
def LakehouseConfig.new (base_path : String) (env_jwt_secret : Option String) :
    LakehouseConfig :=
  { base_path := base_path
    jwt_secret := env_jwt_secret.getD "polarway-lakehouse-default-secret-change-me"
    session_expiry_days := 7
    vacuum_retention_hours := 168
    auto_compact_threshold := 50
    session_z_order_columns := ["user_id"]
    audit_z_order_columns := ["user_id", "action"]
    max_concurrent_writers := 4 }

/-- The names of the fields of the LakehouseConfig struct, in
declaration order: the complete set of options the configuration
recognizes. -/
def lakehouse_config_field_names : List String :=
  ["base_path", "jwt_secret", "session_expiry_days", "vacuum_retention_hours",
   "auto_compact_threshold", "session_z_order_columns", "audit_z_order_columns",
   "max_concurrent_writers"]

/-! ## Append and commit (src/polarway-lakehouse/src/store.rs,
DeltaStore::append) -/

/-- Outcome of one attempted commit against the table log head. -/
inductive CommitOutcome
  | committed (version : Nat)
  | conflict
  deriving DecidableEq, Repr

namespace DeltaStore

/-- Append records to a table, from DeltaStore::append: one
RecordBatchWriter flush_and_commit call, whose outcome is the oracle at
attempt 0; any commit failure propagates directly to the caller, there
is no retry loop in the source. -/
def append (commit : Nat → CommitOutcome) : Except LakehouseError Nat :=
  match commit 0 with
  | .committed v => .ok v
  | .conflict => .error (.DeltaTable "commit conflict")

end DeltaStore

/-- Modelled from the spec: the retrying writer the spec describes
(section 4.2, resolution step 3): on conflict the writer retries the
commit, up to retry_budget further attempts, before surfacing the
conflict; missing from src/, which performs a single attempt. -/
def spec_retry_commit (commit : Nat → CommitOutcome) :
    Nat → Nat → Except LakehouseError Nat
  | attempt, budget =>
    match commit attempt, budget with
    | .committed v, _ => .ok v
    | .conflict, 0 => .error (.DeltaTable "commit conflict")
    | .conflict, b + 1 => spec_retry_commit commit (attempt + 1) b

/-- Modelled from the spec: append with the bounded retry budget the
spec attributes to the commit_retry_max option. -/
def spec_retry_append (retry_max : Nat) (commit : Nat → CommitOutcome) :
    Except LakehouseError Nat :=
  spec_retry_commit commit 0 retry_max

/-- A commit oracle that conflicts on the first attempt and commits on
every later one. -/
def conflict_once : Nat → CommitOutcome
  | 0 => .conflict
  | _ + 1 => .committed 1

/-- C4 counterexample: the configuration does not recognize a
commit_retry_max option, and on a commit oracle that conflicts once the
source append surfaces the conflict where the claimed retry-up-to-5
writer would have succeeded. -/
theorem append_retry_counterexample :
    "commit_retry_max" ∉ lakehouse_config_field_names ∧
      DeltaStore.append conflict_once = .error (.DeltaTable "commit conflict") ∧
      spec_retry_append 5 conflict_once = .ok 1 := by
  refine ⟨by decide, rfl, rfl⟩

/-- C4 amended: append performs exactly one commit attempt — it agrees
with the spec's retrying writer at retry budget 0 — and surfaces the
conflict error directly to the caller. -/
theorem append_single_commit_attempt (commit : Nat → CommitOutcome) :
    DeltaStore.append commit = spec_retry_append 0 commit := by
  unfold DeltaStore.append spec_retry_append spec_retry_commit
  cases commit 0 <;> rfl

/-! ## Vacuum (src/polarway-lakehouse/src/store.rs, DeltaStore::vacuum) -/

/-- One data file as seen by vacuum: its age in hours and whether the
live table state still references it. -/
structure VacuumFile where
  age_hours : Nat
  referenced : Bool
  deriving DecidableEq, Repr

/-- Metrics returned by vacuum operations, from the VacuumMetrics struct. -/
structure VacuumMetrics where
  files_deleted : Nat
  dry_run : Bool
  deriving DecidableEq, Repr

/-- Minimum retention the underlying vacuum enforces when enforcement
is on (one week, 168 hours). -/
def min_retention_hours : Nat := 168

/-- Modelled from the spec: the underlying delta vacuum operation (the
delta-rs crate, not under src/): when enforcement is on and the
requested retention is below the minimum it errors; otherwise it
deletes (or, in a dry run, merely reports) every unreferenced file
older than the retention period. -/
def delta_vacuum (files : List VacuumFile) (retention_hours : Nat) (enforce : Bool)
    (dry_run : Bool) : Except LakehouseError VacuumMetrics :=
  if enforce ∧ retention_hours < min_retention_hours then
    .error (.DeltaTable "retention period below minimum")
  else
    .ok { files_deleted :=
            (files.filter (fun f => !f.referenced && decide (retention_hours < f.age_hours))).length
          dry_run := dry_run }

namespace DeltaStore

/-- Vacuum old files, from DeltaStore::vacuum: calls the underlying
vacuum with enforce_retention_duration set to the boolean
retention_hours > 0 — the caller has no enforce parameter at all. -/
def vacuum (files : List VacuumFile) (retention_hours : Nat) (dry_run : Bool) :
    Except LakehouseError VacuumMetrics :=
  delta_vacuum files retention_hours (decide (retention_hours > 0)) dry_run

end DeltaStore

/-- C3 counterexample: on a table with one unreferenced five-hour-old
file, vacuum at retention 0 with dry_run = false is not refused: it
succeeds and deletes the file, even though the caller set no
enforcement-bypass flag (the API has none). -/
theorem vacuum_zero_retention_counterexample :
    DeltaStore.vacuum [{ age_hours := 5, referenced := false }] 0 false =
      .ok { files_deleted := 1, dry_run := false } := by
  rfl

/-- C3 amended: vacuum at retention 0 always proceeds: the store passes
enforce = (retention_hours > 0) to the underlying vacuum, so at
retention 0 enforcement is disabled automatically and every
unreferenced file of positive age is deleted (or reported when
dry_run); no explicit enforce_retention flag exists or is needed. -/
theorem vacuum_zero_retention_proceeds (files : List VacuumFile) (dry_run : Bool) :
    DeltaStore.vacuum files 0 dry_run =
      .ok { files_deleted :=
              (files.filter (fun f => !f.referenced && decide (0 < f.age_hours))).length
            dry_run := dry_run } := by
  simp [DeltaStore.vacuum, delta_vacuum]

/-! ## Table state, scan, predicate delete, compaction
(src/polarway-lakehouse/src/store.rs; the file-level semantics of the
delta-rs operations is modelled from the spec, sections 3 and 4.3) -/

/-- A table's live file-set: each data file is its list of rows. -/
def scan_rows {Row : Type} (files : List (List Row)) : List Row :=
  files.flatten

/-- Modelled from the spec: per-file step of predicate delete (spec
section 4.3), the body of delta-rs delete being outside src/: split the
file's rows into kept and removed; if nothing is removed keep the file,
if nothing is kept drop it, otherwise rewrite it with the kept rows. -/
def delete_file {Row : Type} (p : Row → Bool) (f : List Row) : Option (List Row) :=
  if (f.filter (fun r => !(p r))).length = f.length then some f
  else if (f.filter (fun r => !(p r))).isEmpty then none
  else some (f.filter (fun r => !(p r)))

/-- Modelled from the spec: predicate delete over the whole live
file-set (spec section 4.3, DeltaStore::delete forwards the predicate
to delta-rs): rewrite every file by the per-file step. -/
def delta_delete {Row : Type} (p : Row → Bool) (files : List (List Row)) :
    List (List Row) :=
  files.filterMap (delete_file p)

/-- Whatever delete_file leaves of a file is exactly its rows not
satisfying the predicate. -/
theorem delete_file_rows {Row : Type} (p : Row → Bool) (f : List Row) :
    (delete_file p f).getD [] = f.filter (fun r => !(p r)) := by
  unfold delete_file
  by_cases h1 : (f.filter (fun r => !(p r))).length = f.length
  · simp only [if_pos h1, Option.getD_some]
    exact ((List.filter_sublist f).eq_of_length h1).symm
  · simp only [if_neg h1]
    by_cases h2 : (f.filter (fun r => !(p r))).isEmpty
    · simp only [if_pos h2, Option.getD_none]
      exact (List.isEmpty_iff.mp h2).symm
    · simp only [if_neg h2, Option.getD_some]

/-- Scanning after a predicate delete yields exactly the filtered scan. -/
theorem delta_delete_scan {Row : Type} (p : Row → Bool) (files : List (List Row)) :
    scan_rows (delta_delete p files) = (scan_rows files).filter (fun r => !(p r)) := by
  induction files with
  | nil => rfl
  | cons f fs ih =>
    unfold scan_rows delta_delete at ih ⊢
    rw [List.filterMap_cons]
    cases h : delete_file p f with
    | none =>
      have hf : f.filter (fun r => !(p r)) = [] := by
        have hr := delete_file_rows p f
        rw [h] at hr
        exact hr.symm
      simp [List.filter_append, hf, ih]
    | some f' =>
      have hf : f' = f.filter (fun r => !(p r)) := by
        have hr := delete_file_rows p f
        rw [h] at hr
        exact hr
      simp [List.filter_append, hf, ih]

/-- Claim C1: after delete(p), scan returns no row satisfying p, and
every row not satisfying p keeps its multiplicity from the scan before
the delete. -/
theorem delete_soundness {Row : Type} [DecidableEq Row] (p : Row → Bool)
    (files : List (List Row)) :
    (∀ r ∈ scan_rows (delta_delete p files), p r = false) ∧
    (∀ r, p r = false →
      (scan_rows (delta_delete p files)).count r = (scan_rows files).count r) := by
  constructor
  · intro r hr
    rw [delta_delete_scan] at hr
    have hp := (List.mem_filter.mp hr).2
    simpa using hp
  · intro r hpr
    rw [delta_delete_scan]
    exact List.count_filter (by simp [hpr])

/-- Witness for C1 at a concrete table: the even-number predicate over
the file-set [[1,2],[2,3]] leaves the odd row 3 with its multiplicity. -/
theorem delete_soundness_witness :
    (fun n : Nat => decide (n % 2 = 0)) 3 = false ∧
      (scan_rows (delta_delete (fun n : Nat => decide (n % 2 = 0)) [[1, 2], [2, 3]])).count 3 =
        (scan_rows [[1, 2], [2, 3]]).count 3 :=
  ⟨by decide, (delete_soundness (fun n : Nat => decide (n % 2 = 0)) [[1, 2], [2, 3]]).2 3
    (by decide)⟩

/-- Modelled from the spec: the small-file test of compaction (spec
section 4.3: files below half the target size are selected), sizes
measured in rows. -/
def small_file {Row : Type} (target_rows : Nat) (f : List Row) : Bool :=
  decide (2 * f.length < target_rows)

/-- Modelled from the spec: compaction (spec section 4.3,
DeltaStore::compact forwards to delta-rs optimize): keep the files that
are not small and concatenate the rows of the small ones into a new
file; the row bag is meant to be invariant. -/
def delta_compact {Row : Type} (target_rows : Nat) (files : List (List Row)) :
    List (List Row) :=
  files.filter (fun f => !(small_file target_rows f)) ++
    [(files.filter (small_file target_rows)).flatten]

/-- Claim C6: the row multiset scanned after a compaction equals the
row multiset scanned before it (stated as a permutation of the scans). -/
theorem compact_preserves_scan {Row : Type} (target_rows : Nat)
    (files : List (List Row)) :
    (scan_rows (delta_compact target_rows files)).Perm (scan_rows files) := by
  unfold scan_rows delta_compact
  rw [List.flatten_append]
  simp only [List.flatten_cons, List.flatten_nil, List.append_nil]
  refine List.perm_append_comm.trans ?_
  have h := (List.filter_append_perm (small_file target_rows) files).flatten
  rwa [List.flatten_append] at h

/-! ## Time-travel reads (src/polarway-lakehouse/src/store.rs,
DeltaStore::read_version) -/

/-- A table's commit log, abstracted to the row contents at each
version: states[v] is the table content at version v. -/
structure TableLog (Row : Type) where
  states : List (List Row)

/-- The table's current head version; an empty log has head -1. -/
def TableLog.head_version {Row : Type} (log : TableLog Row) : Int :=
  (log.states.length : Int) - 1

/-- Modelled from the spec: delta-rs open_table_with_version (outside
src/), per spec section 4.3 time-travel: resolve the state at version V
for 0 ≤ V ≤ head, fail otherwise. -/
def open_table_with_version {Row : Type} (log : TableLog Row) (version : Int) :
    Option (List Row) :=
  if 0 ≤ version then log.states[version.toNat]? else none

namespace DeltaStore

/-- Read a table at a specific version, from DeltaStore::read_version:
any failure of open_table_with_version is mapped to VersionNotFound
with the table name and requested version; on success the resolved
state is scanned. -/
def read_version {Row : Type} (table : String) (log : TableLog Row) (version : Int) :
    Except LakehouseError (List Row) :=
  match open_table_with_version log version with
  | some rows => .ok rows
  | none => .error (.VersionNotFound table version)

end DeltaStore

/-- Claim C5: read_version fails with VersionNotFound exactly when the
version is negative or beyond the head, and returns the rows at the
requested version whenever 0 ≤ V ≤ head. -/
theorem read_version_spec {Row : Type} (table : String) (log : TableLog Row)
    (version : Int) :
    (DeltaStore.read_version table log version =
        .error (.VersionNotFound table version) ↔
      version < 0 ∨ log.head_version < version) ∧
    (0 ≤ version ∧ version ≤ log.head_version →
      DeltaStore.read_version table log version = .ok (log.states.getD version.toNat [])) := by
  by_cases h0 : 0 ≤ version
  · have hcast : (version.toNat : Int) = version := Int.toNat_of_nonneg h0
    by_cases hle : version ≤ log.head_version
    · have hlt : version.toNat < log.states.length := by
        unfold TableLog.head_version at hle
        omega
      have hsome : log.states[version.toNat]? = some log.states[version.toNat] :=
        List.getElem?_eq_getElem hlt
      have hread : DeltaStore.read_version table log version =
          .ok log.states[version.toNat] := by
        simp [DeltaStore.read_version, open_table_with_version, h0, hsome]
      constructor
      · rw [hread]
        constructor
        · intro h
          exact Except.noConfusion h
        · intro h
          unfold TableLog.head_version at h
          omega
      · intro _
        rw [hread, List.getD_eq_getElem?_getD, hsome, Option.getD_some]
    · have hge : log.states.length ≤ version.toNat := by
        unfold TableLog.head_version at hle
        omega
      have hnone : log.states[version.toNat]? = none := List.getElem?_eq_none hge
      have hread : DeltaStore.read_version table log version =
          .error (.VersionNotFound table version) := by
        simp [DeltaStore.read_version, open_table_with_version, h0, hnone]
      constructor
      · exact ⟨fun _ => Or.inr (by omega), fun _ => hread⟩
      · intro hrange
        exact absurd hrange.2 hle
  · have hread : DeltaStore.read_version table log version =
        .error (.VersionNotFound table version) := by
      simp [DeltaStore.read_version, open_table_with_version, h0]
    constructor
    · exact ⟨fun _ => Or.inl (by omega), fun _ => hread⟩
    · intro hrange
      exact absurd hrange.1 h0

/-- Witness for C5 at a concrete log: a two-version log read at
version 1 returns the rows committed at version 1. -/
theorem read_version_spec_witness :
    ((0 : Int) ≤ 1 ∧ (1 : Int) ≤ (TableLog.mk [[10], [20, 30]] : TableLog Nat).head_version) ∧
      DeltaStore.read_version "users" (TableLog.mk [[10], [20, 30]]) 1 = .ok [20, 30] :=
  ⟨⟨by decide, by decide⟩,
    (read_version_spec "users" (TableLog.mk [[10], [20, 30]]) 1).2 ⟨by decide, by decide⟩⟩

/-! ## Login sessions (src/polarway-lakehouse/src/auth/actor.rs,
AuthActor::handle_login, lines 343-382) -/

/-- One row of the sessions Delta table, fields in the order of
sessions_arrow_schema (schema.rs); timestamps are modelled as seconds
since the epoch rather than RFC 3339 strings. -/
structure SessionRow where
  token_hash : String
  user_id : String
  username : String
  role : String
  created_at : Nat
  expires_at : Nat
  is_revoked : Bool
  deriving DecidableEq, Repr

/-- Seconds in a day, the unit behind chrono Duration::days. -/
def seconds_per_day : Nat := 86400

/-- The session-persistence slice of handle_login: the expiry is 30
days when remember_me and the configured session_expiry_days otherwise,
and the appended sessions row stores the hash of the issued token in
its token_hash column, with is_revoked false. The hash (Sha256 hex in
the source) is passed in as a function. -/
def handle_login_session (hash : String → String) (session_expiry_days : Nat)
    (user : UserRecord) (token : String) (remember_me : Bool) (now : Nat) : SessionRow :=
  let expiry_days := if remember_me then 30 else session_expiry_days
  { token_hash := hash token
    user_id := user.user_id
    username := user.username
    role := user.role.as_str
    created_at := now
    expires_at := now + expiry_days * seconds_per_day
    is_revoked := false }

/-- Claim C7: on a successful login the sessions row stores the hash of
the issued token, not the token itself, and under the default
configuration the token's expiry is 30 days with remember_me and 7
days (the configured session expiry) without. -/
theorem login_session_hash_and_expiry (hash : String → String) (base_path : String)
    (env_jwt_secret : Option String) (user : UserRecord) (token : String)
    (remember_me : Bool) (now : Nat) (hne : hash token ≠ token) :
    (handle_login_session hash (LakehouseConfig.new base_path env_jwt_secret).session_expiry_days
        user token remember_me now).token_hash = hash token ∧
    (handle_login_session hash (LakehouseConfig.new base_path env_jwt_secret).session_expiry_days
        user token remember_me now).token_hash ≠ token ∧
    (handle_login_session hash (LakehouseConfig.new base_path env_jwt_secret).session_expiry_days
        user token remember_me now).expires_at =
      now + (if remember_me then 30 else 7) * seconds_per_day := by
  refine ⟨rfl, ?_, ?_⟩
  · simpa [handle_login_session] using hne
  · cases remember_me <;> simp [handle_login_session, LakehouseConfig.new]

/-- A concrete user record for witnesses. -/
def demo_user : UserRecord :=
  { user_id := "u1"
    username := "alice"
    email := "alice@example.com"
    role := .Registered
    subscription_tier := some .Free
    first_name := "Alice"
    last_name := "Smith"
    is_active := true
    created_at := "2026-01-01T00:00:00Z"
    last_login := none }

/-- Witness for C7 at a concrete login: with a hash function that
prefixes its input, the stored token_hash is the hash and the expiry
without remember_me is 7 days after now. -/
theorem login_session_hash_and_expiry_witness :
    (fun t => "sha256-" ++ t) "tok" ≠ "tok" ∧
      (handle_login_session (fun t => "sha256-" ++ t)
          (LakehouseConfig.new "/data/lakehouse" none).session_expiry_days
          demo_user "tok" false 1000).expires_at =
        1000 + (if false then 30 else 7) * seconds_per_day :=
  ⟨by decide,
    (login_session_hash_and_expiry (fun t => "sha256-" ++ t) "/data/lakehouse" none
      demo_user "tok" false 1000 (by decide)).2.2⟩

/-! ## Audit log writes (src/polarway-lakehouse/src/audit/actor.rs,
AuditActor::handle_log, and schema.rs audit_log_arrow_schema) -/

/-- The field names of the audit_log table, in the order declared by
audit_log_arrow_schema in schema.rs. -/
def audit_log_schema_fields : List String :=
  ["event_id", "timestamp", "user_id", "action", "resource", "details_json",
   "ip_address", "user_agent", "date_partition"]

/-- The column arrays handle_log passes to RecordBatch try_new, in the
order they appear in the source (audit/actor.rs lines 136-146): the
event id, then the user id, the username, the action string, the
resource, the detail, the ip address, the timestamp and the date
partition. Nullable columns are Option. -/
def handle_log_column_values (event_id user_id username : String) (action : ActionType)
    (resource : Option String) (detail : String) (ip_address : Option String)
    (timestamp date_partition : String) : List (Option String) :=
  [some event_id, some user_id, some username, some action.as_str, resource,
   some detail, ip_address, some timestamp, some date_partition]

/-- The value the appended batch stores under a named audit_log column:
schema field names are paired with the passed column arrays in order. -/
def audit_column (name : String) (values : List (Option String)) : Option (Option String) :=
  (audit_log_schema_fields.zip values).lookup name

/-- Claim C8, evaluated at a concrete event showing the code bug: the
columns handle_log appends do not line up with the audit_log schema
field order — the user_id column receives the username, the timestamp
column receives the user id, and the event timestamp lands in the
user_agent column. -/
theorem handle_log_misaligned_columns :
    audit_column "user_id"
        (handle_log_column_values "e1" "u1" "alice" .Login none "detail" none
          "2026-03-01T00:00:00Z" "2026-03-01") = some (some "alice") ∧
      audit_column "timestamp"
        (handle_log_column_values "e1" "u1" "alice" .Login none "detail" none
          "2026-03-01T00:00:00Z" "2026-03-01") = some (some "u1") ∧
      audit_column "user_agent"
        (handle_log_column_values "e1" "u1" "alice" .Login none "detail" none
          "2026-03-01T00:00:00Z" "2026-03-01") = some (some "2026-03-01T00:00:00Z") := by
  refine ⟨rfl, rfl, rfl⟩

/-! ## Audit read queries (src/polarway-lakehouse/src/audit/actor.rs,
handle_user_activity and handle_recent_events, and DeltaStore::sql in
store.rs) -/

/-- Audit entry as the audit actor returns it, from the AuditEntry
struct in audit/types.rs. -/
structure AuditEntry where
  event_id : String
  user_id : String
  username : String
  action : ActionType
  resource : Option String
  detail : String
  ip_address : Option String
  timestamp : String
  date_partition : String
  deriving DecidableEq, Repr

/-- The shape of the SQL statements the audit actor formats: the table
named in the FROM clause, an optional user_id equality filter and an
optional LIMIT (the ORDER BY affects only ordering and is omitted). -/
structure SqlStmt where
  from_table : String
  where_user_id : Option String
  limit : Option Nat
  deriving DecidableEq, Repr

/-- The name under which DeltaStore::sql registers the table provider
with the DataFusion session context (store.rs line 295). -/
def registered_table_name : String := "t"

/-- Evaluate a statement against the registered table's rows. -/
def sql_eval (stmt : SqlStmt) (rows : List AuditEntry) : List AuditEntry :=
  let filtered :=
    match stmt.where_user_id with
    | some uid => rows.filter (fun r => r.user_id == uid)
    | none => rows
  match stmt.limit with
  | some n => filtered.take n
  | none => filtered

namespace DeltaStore

/-- Full SQL query on a table, from DeltaStore::sql: the provider is
registered only under the name t, so a statement whose FROM clause
names any other table fails with a DataFusion error. -/
def sql (stmt : SqlStmt) (rows : List AuditEntry) : Except LakehouseError (List AuditEntry) :=
  if stmt.from_table == registered_table_name then .ok (sql_eval stmt rows)
  else .error (.DataFusion ("table not found: " ++ stmt.from_table))

end DeltaStore

/-- Recent activity for one user, from AuditActor::handle_user_activity:
formats a statement whose FROM clause names audit_log, runs it through
DeltaStore::sql, and turns any error into the empty default. -/
def handle_user_activity (rows : List AuditEntry) (user_id : String) (limit : Nat) :
    List AuditEntry :=
  match DeltaStore.sql
      { from_table := "audit_log", where_user_id := some user_id, limit := some limit }
      rows with
  | .ok entries => entries
  | .error _ => []

/-- Recent events across users, from AuditActor::handle_recent_events:
same FROM audit_log statement without the user filter, same swallowed
error. -/
def handle_recent_events (rows : List AuditEntry) (limit : Nat) : List AuditEntry :=
  match DeltaStore.sql
      { from_table := "audit_log", where_user_id := none, limit := some limit }
      rows with
  | .ok entries => entries
  | .error _ => []

/-- Claim C9: for every store content and every input,
get_user_activity and get_recent_events return the empty list: their
SQL names the table audit_log while the provider is registered only as
t, and the resulting error is swallowed into the default. -/
theorem audit_queries_return_empty (rows : List AuditEntry) (user_id : String)
    (limit : Nat) :
    handle_user_activity rows user_id limit = [] ∧
      handle_recent_events rows limit = [] :=
  ⟨rfl, rfl⟩

end Polaroid
